import Mathlib

/-!
Verification of the upgrade-planning engine for auxiliary applications
(charmed-openstack-upgrader). The definitions below shallowly embed
`src/cou/apps/auxiliary.py`; collaborators that the repository slice does
not contain (the release catalog, the two track-mapping tables' shape, the
base application's pre-upgrade steps and wait-policy defaults, the channel
parser helper, the OVN version validator and the hypervisor workload guard)
are modelled from the specification and marked as such in doc comments.
-/

namespace Cou

/-- Modelled from the spec: the Release Ordinal Model's fixed ordered catalog
of known release codenames; ordering is by catalog position and "ussuri" is
the oldest known release (the fixed baseline for charm-store installs). -/
def OPENSTACK_CODENAMES : List String :=
  ["ussuri", "victoria", "wallaby", "xena", "yoga", "zed", "antelope"]

/-- A release is identified by its codename (`OpenStackRelease`). -/
structure OpenStackRelease where
  codename : String
deriving DecidableEq

/-- Catalog ordinal of a release: its position in the fixed catalog. -/
def os_ordinal (r : OpenStackRelease) : Nat :=
  OPENSTACK_CODENAMES.indexOf r.codename

/-- Python `max` over a nonempty collection of releases compared by catalog
ordinal: fold keeping the current element unless a strictly larger one
appears (so on ties the earliest maximal element wins, as in Python). -/
def pickMax (r : OpenStackRelease) : List OpenStackRelease → OpenStackRelease
  | [] => r
  | x :: xs => pickMax (if os_ordinal r < os_ordinal x then x else r) xs

/-- Association-list lookup standing for a Python dict `.get` /`[...]` access
on the static mapping tables (keys are unique in the tables). -/
def lookupTable {α : Type} (key : String × String × String) :
    List ((String × String × String) × α) → Option α
  | [] => none
  | (k, v) :: rest => if k = key then some v else lookupTable key rest

/-- Modelled from the spec: the two bidirectional static track-mapping tables
(`OPENSTACK_TO_TRACK_MAPPING` keyed by (charm, series, release codename) and
`TRACK_TO_OPENSTACK_MAPPING` keyed by (charm, series, track)); their concrete
CSV-derived contents are outside the repository slice, so functions take the
tables as a parameter. -/
structure Mappings where
  openstack_to_track : List ((String × String × String) × List String)
  track_to_openstack : List ((String × String × String) × List OpenStackRelease)

/-- A deployed unit: name and observable workload-version metadata. -/
structure UnitState where
  name : String
  workload_version : Nat
deriving DecidableEq

/-- One deployed application: kind (charm), platform series, current channel,
installation provenance and member units (`self.units.values()` in insertion
order). -/
structure AppState where
  name : String
  charm : String
  series : String
  channel : String
  is_from_charm_store : Bool
  units : List UnitState
deriving DecidableEq

/-- Modelled from the spec: a channel is a string "track/risk"; the track is
the part before the first slash (`OpenStackApplication._get_track_from_channel`
is outside the repository slice). -/
def get_track_from_channel (channel : String) : String :=
  { data := channel.data.takeWhile (fun c => c ≠ '/') }

/-- The error message raised by `possible_current_channels` and
`target_channel` when no suitable track exists (auxiliary.py lines 67-74 and
89-95); written in the exact left-associated shape of the source f-string. -/
def channelErrMsg (charm codename series : String) : String :=
  "Cannot find a suitable '" ++ charm ++ "' charm channel for " ++ codename ++
    " on series '" ++ series ++
    "'. Please take a look at the documentation: https://docs.openstack.org/charm-guide/latest/project/charm-delivery.html"

/-- `AuxiliaryApplication.is_valid_track` (auxiliary.py lines 36-51): charm
store installs are always valid; otherwise the (charm, series, track) key must
be present in the reverse table. -/
def is_valid_track (m : Mappings) (app : AppState) (charm_channel : String) : Bool :=
  if app.is_from_charm_store then
    true
  else
    (lookupTable (app.charm, app.series, get_track_from_channel charm_channel)
      m.track_to_openstack).isSome

/-- `AuxiliaryApplication.possible_current_channels` (auxiliary.py lines
53-74): map each registered track to "track/stable", or raise
`ApplicationError` when the lookup yields nothing or an empty list (Python
`if tracks:` treats both as falsy). -/
def possible_current_channels (m : Mappings) (app : AppState)
    (current : OpenStackRelease) : Except String (List String) :=
  match lookupTable (app.charm, app.series, current.codename) m.openstack_to_track with
  | some (t :: ts) => Except.ok ((t :: ts).map (fun track => track ++ "/stable"))
  | _ => Except.error (channelErrMsg app.charm current.codename app.series)

/-- `AuxiliaryApplication.target_channel` (auxiliary.py lines 76-95): take the
last registered track (`tracks[-1]`), or raise `ApplicationError` when the
lookup yields nothing or an empty list. -/
def target_channel (m : Mappings) (app : AppState) (target : OpenStackRelease) :
    Except String String :=
  match lookupTable (app.charm, app.series, target.codename) m.openstack_to_track with
  | some (t :: ts) => Except.ok ((t :: ts).getLast (List.cons_ne_nil t ts) ++ "/stable")
  | _ => Except.error (channelErrMsg app.charm target.codename app.series)

/-- `AuxiliaryApplication.channel_codename` (auxiliary.py lines 97-121): charm
store installs are assumed to be Ussuri; otherwise the reverse table is
indexed (a missing key is a Python `KeyError`) and the maximum compatible
release by catalog ordinal is returned (Python `max` on an empty collection
raises). -/
def channel_codename (m : Mappings) (app : AppState) : Except String OpenStackRelease :=
  if app.is_from_charm_store then
    Except.ok { codename := "ussuri" }
  else
    match lookupTable (app.charm, app.series, get_track_from_channel app.channel)
        m.track_to_openstack with
    | none =>
      Except.error ("KeyError: (" ++ app.charm ++ ", " ++ app.series ++ ", " ++
        get_track_from_channel app.channel ++ ")")
    | some [] => Except.error "max() arg is an empty sequence"
    | some (r :: rs) => Except.ok (pickMax r rs)

theorem pickMax_mem (r : OpenStackRelease) (rs : List OpenStackRelease) :
    pickMax r rs = r ∨ pickMax r rs ∈ rs := by
  induction rs generalizing r with
  | nil => exact Or.inl rfl
  | cons x xs ih =>
    rw [pickMax]
    rcases ih (if os_ordinal r < os_ordinal x then x else r) with h | h
    · rw [h]
      by_cases hc : os_ordinal r < os_ordinal x
      · exact Or.inr (by simp [hc])
      · exact Or.inl (by simp [hc])
    · exact Or.inr (List.mem_cons_of_mem x h)

theorem le_pickMax_base (r : OpenStackRelease) (rs : List OpenStackRelease) :
    os_ordinal r ≤ os_ordinal (pickMax r rs) := by
  induction rs generalizing r with
  | nil => exact Nat.le_refl _
  | cons x xs ih =>
    rw [pickMax]
    by_cases hc : os_ordinal r < os_ordinal x
    · simpa [hc] using Nat.le_trans (Nat.le_of_lt hc) (ih x)
    · simpa [hc] using ih r

theorem le_pickMax_of_mem (r : OpenStackRelease) (rs : List OpenStackRelease) :
    ∀ x ∈ rs, os_ordinal x ≤ os_ordinal (pickMax r rs) := by
  induction rs generalizing r with
  | nil => intro x hx; cases hx
  | cons y ys ih =>
    intro x hx
    rw [pickMax]
    rcases List.mem_cons.mp hx with h | h
    · subst h
      by_cases hc : os_ordinal r < os_ordinal x
      · simpa [hc] using le_pickMax_base x ys
      · exact Nat.le_trans (Nat.le_of_not_lt hc) (by simpa [hc] using le_pickMax_base r ys)
    · exact ih _ x h

/-- C1: for an auxiliary application not installed from the charm store whose
channel track has a registered reverse mapping, `channel_codename` returns a
release of the mapped set that is maximal by catalog ordinal; with two mapped
releases this is exactly max of the two. -/
theorem channel_codename_returns_max (m : Mappings) (app : AppState)
    (hstore : app.is_from_charm_store = false)
    (r0 : OpenStackRelease) (rs : List OpenStackRelease)
    (hreg : lookupTable (app.charm, app.series, get_track_from_channel app.channel)
        m.track_to_openstack = some (r0 :: rs)) :
    ∃ r, channel_codename m app = Except.ok r ∧ r ∈ r0 :: rs ∧
      ∀ x ∈ r0 :: rs, os_ordinal x ≤ os_ordinal r := by
  refine ⟨pickMax r0 rs, ?_, ?_, ?_⟩
  · rw [channel_codename, hstore]
    simp only [Bool.false_eq_true, if_false]
    rw [hreg]
  · rcases pickMax_mem r0 rs with h | h
    · rw [h]; exact List.mem_cons_self r0 rs
    · exact List.mem_cons_of_mem r0 h
  · intro x hx
    rcases List.mem_cons.mp hx with h | h
    · subst h; exact le_pickMax_base x rs
    · exact le_pickMax_of_mem r0 rs x h

/-- Concrete mapping table used by witnesses: vault on focal, track 1.8,
compatible with ussuri and victoria; forward entries for victoria and yoga. -/
def demoMappings : Mappings :=
  { openstack_to_track :=
      [(("vault", "focal", "victoria"), ["1.7", "1.8"]),
       (("vault", "focal", "yoga"), ["1.8"])],
    track_to_openstack :=
      [(("vault", "focal", "1.8"),
        [{ codename := "ussuri" }, { codename := "victoria" }])] }

/-- Concrete application used by witnesses: vault on focal, channel
1.8/stable, not from the charm store, one unit. -/
def demoApp : AppState :=
  { name := "vault", charm := "vault", series := "focal", channel := "1.8/stable",
    is_from_charm_store := false,
    units := [{ name := "vault/0", workload_version := 2303 }] }

/-- Witness for C1 at the concrete table: the channel 1.8/stable of vault on
focal maps to \x7bussuri, victoria\x7d and the returned release is maximal. -/
theorem channel_codename_returns_max_witness :
    ∃ r, channel_codename demoMappings demoApp = Except.ok r ∧
      r ∈ ({ codename := "ussuri" } : OpenStackRelease) ::
        [{ codename := "victoria" }] ∧
      ∀ x ∈ ({ codename := "ussuri" } : OpenStackRelease) ::
        [{ codename := "victoria" }], os_ordinal x ≤ os_ordinal r :=
  channel_codename_returns_max demoMappings demoApp rfl
    { codename := "ussuri" } [{ codename := "victoria" }] (by decide)

/-- C2: with a registered nonempty forward mapping, `target_channel` returns
"last track/stable"; with no registered mapping it fails with a message that
names the charm (component kind), the target release codename and the
series. -/
theorem target_channel_last_track (m : Mappings) (app : AppState)
    (target : OpenStackRelease) :
    (∀ ts, lookupTable (app.charm, app.series, target.codename)
        m.openstack_to_track = some ts → ∀ hne : ts ≠ [],
      target_channel m app target = Except.ok (ts.getLast hne ++ "/stable"))
  ∧ (lookupTable (app.charm, app.series, target.codename) m.openstack_to_track = none →
      target_channel m app target =
        Except.error ("Cannot find a suitable '" ++ app.charm ++
          "' charm channel for " ++ target.codename ++ " on series '" ++ app.series ++
          "'. Please take a look at the documentation: https://docs.openstack.org/charm-guide/latest/project/charm-delivery.html")) := by
  constructor
  · intro ts hreg hne
    match ts, hne with
    | t :: ts, _ =>
      rw [target_channel, hreg]
  · intro hnone
    rw [target_channel, hnone]
    rfl

/-- Witness for C2 at the concrete table: for victoria the last track 1.8 is
chosen, and for an unregistered release the descriptive error is raised. -/
theorem target_channel_last_track_witness :
    target_channel demoMappings demoApp { codename := "victoria" } =
      Except.ok ("1.8/stable")
  ∧ target_channel demoMappings demoApp { codename := "zed" } =
      Except.error ("Cannot find a suitable '" ++ "vault" ++
        "' charm channel for " ++ "zed" ++ " on series '" ++ "focal" ++
        "'. Please take a look at the documentation: https://docs.openstack.org/charm-guide/latest/project/charm-delivery.html") := by
  constructor
  · exact (target_channel_last_track demoMappings demoApp { codename := "victoria" }).1
      ["1.7", "1.8"] (by decide) (by decide)
  · exact (target_channel_last_track demoMappings demoApp { codename := "zed" }).2
      (by decide)

/-- C3: for an application installed from the charm store, `is_valid_track`
accepts every channel string and `channel_codename` returns the fixed
baseline release "ussuri", which is the oldest (minimal-ordinal) release of
the catalog. -/
theorem charm_store_bypass (m : Mappings) (app : AppState) (ch : String)
    (hstore : app.is_from_charm_store = true) :
    is_valid_track m app ch = true
  ∧ channel_codename m app = Except.ok { codename := "ussuri" }
  ∧ ∀ c ∈ OPENSTACK_CODENAMES,
      os_ordinal { codename := "ussuri" } ≤ os_ordinal { codename := c } := by
  refine ⟨?_, ?_, ?_⟩
  · rw [is_valid_track, hstore]; rfl
  · rw [channel_codename, hstore]; rfl
  · decide

/-- Concrete charm-store application used by the C3 witness. -/
def demoStoreApp : AppState :=
  { name := "vault", charm := "vault", series := "focal", channel := "weird/edge",
    is_from_charm_store := true, units := [] }

/-- Witness for C3: a charm-store install with an arbitrary unmapped channel
is accepted and interpreted as ussuri. -/
theorem charm_store_bypass_witness :
    is_valid_track demoMappings demoStoreApp "weird/edge" = true
  ∧ channel_codename demoMappings demoStoreApp = Except.ok { codename := "ussuri" }
  ∧ ∀ c ∈ OPENSTACK_CODENAMES,
      os_ordinal { codename := "ussuri" } ≤ os_ordinal { codename := c } :=
  charm_store_bypass demoMappings demoStoreApp "weird/edge" rfl

/-- The deferred operation carried by a pre-upgrade step: either an opaque
base-step action or `set_require_osd_release_option(unit_name, model)` from
`CephMon._get_change_require_osd_release_step`. -/
inductive StepAction where
  | generic : String → StepAction
  | setRequireOsdRelease : String → StepAction
deriving DecidableEq

/-- A `PreUpgradeStep`: human-readable description plus deferred action. -/
structure PreUpgradeStep where
  description : String
  action : StepAction
deriving DecidableEq

/-- A step is the ceph-mon reconciliation step exactly when its action sets
the require-osd-release option. -/
def isReconStep (s : PreUpgradeStep) : Bool :=
  match s.action with
  | StepAction.setRequireOsdRelease _ => true
  | StepAction.generic _ => false

/-- Description string of the reconciliation step (auxiliary.py lines
163-164, the two concatenated literals). -/
def reconDescription : String :=
  "Ensure that the 'require-osd-release' option matches the 'ceph-osd' version"

/-- `CephMon._get_change_require_osd_release_step` (auxiliary.py lines
152-166): `ceph_mon_unit, *_ = self.units.values()` unpacks the first unit
and fails with a `ValueError` when there is none; the step's coroutine
receives that one unit's name. -/
def cephMon_get_change_require_osd_release_step (app : AppState) :
    Except String PreUpgradeStep :=
  match app.units with
  | [] => Except.error "not enough values to unpack (expected at least 1, got 0)"
  | u :: _ =>
    Except.ok
      { description := reconDescription,
        action := StepAction.setRequireOsdRelease u.name }

/-- `CephMon.pre_upgrade_steps` (auxiliary.py lines 142-150): the base class's
steps with the reconciliation step appended after them. The base class's
`pre_upgrade_steps` is outside the repository slice and is modelled from the
spec as a given list of common steps (none of them reconciliation steps),
passed as the parameter `base`. -/
def cephMon_pre_upgrade_steps (base : List PreUpgradeStep) (app : AppState) :
    Except String (List PreUpgradeStep) :=
  match cephMon_get_change_require_osd_release_step app with
  | Except.error e => Except.error e
  | Except.ok s => Except.ok (base ++ [s])

/-- Modelled from the spec: the minimum supported OVN workload-version floor
(`validate_ovn_support` lives outside the repository slice; versions are
modelled as naturals compared against the floor). -/
def MIN_OVN_VERSION : Nat := 2203

/-- Modelled from the spec: `validate_ovn_support` receives only a workload
version (per the call site in auxiliary.py line 182) and raises a descriptive
error carrying that version when it is below the supported floor. -/
def validate_ovn_support (workload_version : Nat) : Except String Unit :=
  if workload_version < MIN_OVN_VERSION then
    Except.error
      ("OVN version " ++ toString workload_version ++
        " is not supported. The minimal supported version is " ++
        toString MIN_OVN_VERSION)
  else
    Except.ok ()

/-- The validation loop of `OvnPrincipal.pre_upgrade_steps` (auxiliary.py
lines 181-182): validate each unit's workload version in order, stopping at
the first failure. -/
def validate_ovn_units : List UnitState → Except String Unit
  | [] => Except.ok ()
  | u :: rest =>
    match validate_ovn_support u.workload_version with
    | Except.error e => Except.error e
    | Except.ok _ => validate_ovn_units rest

/-- `OvnPrincipal.pre_upgrade_steps` (auxiliary.py lines 173-183): validate
every unit's workload version, then return the base class's steps (modelled
from the spec as the parameter `base`). -/
def ovnPrincipal_pre_upgrade_steps (base : List PreUpgradeStep) (app : AppState) :
    Except String (List PreUpgradeStep) :=
  match validate_ovn_units app.units with
  | Except.error e => Except.error e
  | Except.ok _ => Except.ok base

/-- Modelled from the spec: the base `OpenStackApplication` default idle
timeout (shorter than the long one) and default wait scope (only the
application's own units, not the whole model). -/
def STANDARD_IDLE_TIMEOUT : Nat := 300

/-- Modelled from the spec: the longer-than-default idle timeout constant
`LONG_IDLE_TIMEOUT` imported by auxiliary.py. -/
def LONG_IDLE_TIMEOUT : Nat := 2400

/-- Wait policy attributes of an application class: idle timeout and whether
the whole model must be idle. -/
structure WaitPolicy where
  wait_timeout : Nat
  wait_for_model : Bool
deriving DecidableEq

/-- Modelled from the spec: the base `OpenStackApplication` wait policy
defaults (standard timeout, own units only). -/
def openStackApplication_wait_policy : WaitPolicy :=
  { wait_timeout := STANDARD_IDLE_TIMEOUT, wait_for_model := false }

/-- `AuxiliaryApplication` (auxiliary.py lines 32-121) overrides neither wait
attribute, so it inherits the base defaults. -/
def auxiliaryApplication_wait_policy : WaitPolicy :=
  openStackApplication_wait_policy

/-- `RabbitMQServer` (auxiliary.py lines 124-132) sets
`wait_timeout = LONG_IDLE_TIMEOUT` and `wait_for_model = True`. -/
def rabbitMQServer_wait_policy : WaitPolicy :=
  { wait_timeout := LONG_IDLE_TIMEOUT, wait_for_model := true }

/-- `CephMon` (auxiliary.py lines 135-140) sets
`wait_timeout = LONG_IDLE_TIMEOUT` and `wait_for_model = True`. -/
def cephMon_wait_policy : WaitPolicy :=
  { wait_timeout := LONG_IDLE_TIMEOUT, wait_for_model := true }

/-- `OvnPrincipal` (auxiliary.py lines 169-183) overrides neither wait
attribute in its class body, so it inherits the auxiliary (hence base)
defaults. -/
def ovnPrincipal_wait_policy : WaitPolicy :=
  auxiliaryApplication_wait_policy

/-- `MysqlInnodbCluster` (auxiliary.py lines 186-193) sets
`wait_timeout = LONG_IDLE_TIMEOUT` and keeps the default wait scope. -/
def mysqlInnodbCluster_wait_policy : WaitPolicy :=
  { wait_timeout := LONG_IDLE_TIMEOUT,
    wait_for_model := openStackApplication_wait_policy.wait_for_model }

/-- Concrete base-class step used by several concrete scenarios: a common
(non-reconciliation) pre-upgrade step such as a charm refresh. -/
def demoBaseStep : PreUpgradeStep :=
  { description := "Refresh the charm to the latest revision of its channel",
    action := StepAction.generic "refresh" }

/-- Concrete ceph-mon application with two units. -/
def cephMonApp : AppState :=
  { name := "ceph-mon", charm := "ceph-mon", series := "focal",
    channel := "octopus/stable", is_from_charm_store := false,
    units := [{ name := "ceph-mon/0", workload_version := 1528 },
              { name := "ceph-mon/1", workload_version := 1509 }] }

/-- The reconciliation step produced for `cephMonApp` (first unit). -/
def cephMonReconStep : PreUpgradeStep :=
  { description := reconDescription,
    action := StepAction.setRequireOsdRelease "ceph-mon/0" }

/-- The reconciliation step carrying a given unit name. -/
def reconStepFor (unit_name : String) : PreUpgradeStep :=
  { description := reconDescription,
    action := StepAction.setRequireOsdRelease unit_name }

/-- C4 counterexample: with one common base step, CephMon appends the
reconciliation step AFTER the base step (auxiliary.py line 150 concatenates
it at the end), so the reconciliation step is last, not preceding the other
step: the claim fails at this input. -/
theorem cephMon_recon_step_not_first :
    cephMon_pre_upgrade_steps [demoBaseStep] cephMonApp =
      Except.ok [demoBaseStep, cephMonReconStep]
  ∧ isReconStep demoBaseStep = false
  ∧ isReconStep cephMonReconStep = true
  ∧ List.head? [demoBaseStep, cephMonReconStep] = some demoBaseStep
  ∧ List.getLast? [demoBaseStep, cephMonReconStep] = some cephMonReconStep :=
  ⟨rfl, rfl, rfl, rfl, rfl⟩

/-- C4 amended: CephMon's pre-upgrade steps contain exactly one
reconciliation step, and it follows every base step (it is appended last),
provided the application has at least one unit and the base steps are not
reconciliation steps. -/
theorem cephMon_exactly_one_recon_step_last (base : List PreUpgradeStep)
    (app : AppState) (hbase : ∀ s ∈ base, isReconStep s = false)
    (u : UnitState) (rest : List UnitState) (hu : app.units = u :: rest) :
    ∃ l, cephMon_pre_upgrade_steps base app = Except.ok l ∧
      l = base ++ [reconStepFor u.name] ∧
      (l.filter isReconStep).length = 1 ∧
      l.getLast? = some (reconStepFor u.name) := by
  refine ⟨base ++ [reconStepFor u.name], ?_, rfl, ?_, ?_⟩
  · rw [cephMon_pre_upgrade_steps, cephMon_get_change_require_osd_release_step, hu]
    rfl
  · rw [List.filter_append]
    have hb : base.filter isReconStep = [] := by
      rw [List.filter_eq_nil_iff]
      intro a ha
      rw [hbase a ha]
      exact Bool.false_ne_true
    rw [hb]
    rfl
  · exact List.getLast?_concat base

/-- Witness for the amended C4 at the concrete ceph-mon application. -/
theorem cephMon_exactly_one_recon_step_last_witness :
    ∃ l, cephMon_pre_upgrade_steps [demoBaseStep] cephMonApp = Except.ok l ∧
      l = [demoBaseStep] ++ [reconStepFor "ceph-mon/0"] ∧
      (l.filter isReconStep).length = 1 ∧
      l.getLast? = some (reconStepFor "ceph-mon/0") :=
  cephMon_exactly_one_recon_step_last [demoBaseStep] cephMonApp (by decide)
    { name := "ceph-mon/0", workload_version := 1528 }
    [{ name := "ceph-mon/1", workload_version := 1509 }] rfl

/-- C10: CephMon's reconciliation step is built from the application's first
unit only: with zero units the unpacking fails instead of returning a step
list, and with at least one unit the emitted step carries exactly the first
unit's name. -/
theorem cephMon_requires_first_unit (base : List PreUpgradeStep) (app : AppState) :
    (app.units = [] → cephMon_pre_upgrade_steps base app =
      Except.error "not enough values to unpack (expected at least 1, got 0)")
  ∧ (∀ u rest, app.units = u :: rest →
      cephMon_pre_upgrade_steps base app =
        Except.ok (base ++ [reconStepFor u.name])) := by
  constructor
  · intro h
    rw [cephMon_pre_upgrade_steps, cephMon_get_change_require_osd_release_step, h]
  · intro u rest h
    rw [cephMon_pre_upgrade_steps, cephMon_get_change_require_osd_release_step, h]
    rfl

/-- Concrete ceph-mon application with no units, for the C10 witness. -/
def cephMonEmptyApp : AppState :=
  { name := "ceph-mon", charm := "ceph-mon", series := "focal",
    channel := "octopus/stable", is_from_charm_store := false, units := [] }

/-- Witness for C10: the zero-unit application fails and the two-unit
application yields a step referencing exactly the first unit's name. -/
theorem cephMon_requires_first_unit_witness :
    cephMon_pre_upgrade_steps [demoBaseStep] cephMonEmptyApp =
      Except.error "not enough values to unpack (expected at least 1, got 0)"
  ∧ cephMon_pre_upgrade_steps [demoBaseStep] cephMonApp =
      Except.ok ([demoBaseStep] ++ [reconStepFor "ceph-mon/0"]) :=
  ⟨(cephMon_requires_first_unit [demoBaseStep] cephMonEmptyApp).1 rfl,
   (cephMon_requires_first_unit [demoBaseStep] cephMonApp).2
     { name := "ceph-mon/0", workload_version := 1528 }
     [{ name := "ceph-mon/1", workload_version := 1509 }] rfl⟩

/-- The OVN error message for a given rejected version. -/
def ovnErrMsg (v : Nat) : String :=
  "OVN version " ++ toString v ++
    " is not supported. The minimal supported version is " ++
    toString MIN_OVN_VERSION

/-- Concrete OVN application whose single unit reports a version below the
floor. -/
def ovnAppA : AppState :=
  { name := "ovn-central", charm := "ovn-central", series := "focal",
    channel := "22.03/stable", is_from_charm_store := false,
    units := [{ name := "ovn-central/0", workload_version := 2003 }] }

/-- The same OVN application with a differently named unit reporting the same
version. -/
def ovnAppB : AppState :=
  { name := "ovn-central", charm := "ovn-central", series := "focal",
    channel := "22.03/stable", is_from_charm_store := false,
    units := [{ name := "ovn-central/7", workload_version := 2003 }] }

/-- C5 counterexample: `validate_ovn_support` receives only the workload
version (auxiliary.py line 182), so the error raised for an unsupported unit
cannot identify the unit: two applications differing only in the failing
unit's name produce the identical error, and the unit's name does not occur
in the message. -/
theorem ovn_error_does_not_identify_unit :
    ovnPrincipal_pre_upgrade_steps [demoBaseStep] ovnAppA = Except.error (ovnErrMsg 2003)
  ∧ ovnPrincipal_pre_upgrade_steps [demoBaseStep] ovnAppB = Except.error (ovnErrMsg 2003)
  ∧ ovnAppA.units ≠ ovnAppB.units
  ∧ ¬ List.IsInfix ("ovn-central/0").data (ovnErrMsg 2003).data := by
  refine ⟨rfl, rfl, by decide, ?_⟩
  set_option maxRecDepth 4000 in decide

theorem validate_ovn_units_below_floor (l : List UnitState) (u : UnitState)
    (hu : u ∈ l) (hlow : u.workload_version < MIN_OVN_VERSION) :
    ∃ v, v < MIN_OVN_VERSION ∧ (∃ w ∈ l, w.workload_version = v) ∧
      validate_ovn_units l = Except.error (ovnErrMsg v) := by
  induction l with
  | nil => cases hu
  | cons x xs ih =>
    by_cases hx : x.workload_version < MIN_OVN_VERSION
    · refine ⟨x.workload_version, hx, ⟨x, List.mem_cons_self x xs, rfl⟩, ?_⟩
      rw [validate_ovn_units, validate_ovn_support, if_pos hx]
      rfl
    · rcases List.mem_cons.mp hu with h | h
      · exact absurd (h ▸ hlow) hx
      · rcases ih h with ⟨v, hv, ⟨w, hw, hwv⟩, heq⟩
        refine ⟨v, hv, ⟨w, List.mem_cons_of_mem x hw, hwv⟩, ?_⟩
        rw [validate_ovn_units, validate_ovn_support, if_neg hx]
        exact heq

/-- C5 amended: when some unit of an OVN principal application reports a
workload version below the supported floor, `pre_upgrade_steps` validates the
units before any step is produced and aborts with an error carrying the
offending version (though not the unit's name); no steps are emitted. -/
theorem ovn_version_floor_aborts (base : List PreUpgradeStep) (app : AppState)
    (u : UnitState) (hu : u ∈ app.units)
    (hlow : u.workload_version < MIN_OVN_VERSION) :
    ∃ v, v < MIN_OVN_VERSION ∧ (∃ w ∈ app.units, w.workload_version = v) ∧
      ovnPrincipal_pre_upgrade_steps base app = Except.error (ovnErrMsg v) := by
  rcases validate_ovn_units_below_floor app.units u hu hlow with ⟨v, hv, hmem, heq⟩
  exact ⟨v, hv, hmem, by rw [ovnPrincipal_pre_upgrade_steps, heq]⟩

/-- Witness for the amended C5 at the concrete OVN application. -/
theorem ovn_version_floor_aborts_witness :
    ∃ v, v < MIN_OVN_VERSION ∧ (∃ w ∈ ovnAppA.units, w.workload_version = v) ∧
      ovnPrincipal_pre_upgrade_steps [demoBaseStep] ovnAppA =
        Except.error (ovnErrMsg v) :=
  ovn_version_floor_aborts [demoBaseStep] ovnAppA
    { name := "ovn-central/0", workload_version := 2003 } (by decide) (by decide)

/-- C6 counterexample: `OvnPrincipal` overrides neither `wait_timeout` nor
`wait_for_model` in its class body, so the OVN principal applications keep
the base defaults: they do not wait for the whole model and do not use the
longer-than-default idle timeout, contrary to the claim. -/
theorem ovnPrincipal_keeps_default_wait_policy :
    ovnPrincipal_wait_policy.wait_for_model = false
  ∧ ovnPrincipal_wait_policy.wait_timeout = STANDARD_IDLE_TIMEOUT
  ∧ STANDARD_IDLE_TIMEOUT < LONG_IDLE_TIMEOUT
  ∧ rabbitMQServer_wait_policy.wait_for_model = true := by
  refine ⟨rfl, rfl, by decide, rfl⟩

/-- C6 amended: the messaging (rabbitmq-server) and monitoring/coordination
(ceph-mon) variants require the entire model to be idle and use the
longer-than-default idle timeout; the OVN principal variant keeps the base
defaults (own units only, standard timeout). -/
theorem whole_model_idle_wait_policies :
    rabbitMQServer_wait_policy =
      { wait_timeout := LONG_IDLE_TIMEOUT, wait_for_model := true }
  ∧ cephMon_wait_policy =
      { wait_timeout := LONG_IDLE_TIMEOUT, wait_for_model := true }
  ∧ ovnPrincipal_wait_policy = openStackApplication_wait_policy
  ∧ openStackApplication_wait_policy.wait_for_model = false
  ∧ openStackApplication_wait_policy.wait_timeout < LONG_IDLE_TIMEOUT := by
  refine ⟨rfl, rfl, rfl, rfl, by decide⟩

/-- C8: `possible_current_channels` maps each registered track to
"track/stable" in table order; with no registered tracks it fails with an
`ApplicationError` (the spec's ChannelResolutionError) whose message names the
charm (component kind), the release codename and the series; and a successful
result only ever comes from a registered nonempty track list, never from a
fallback. -/
theorem possible_current_channels_spec (m : Mappings) (app : AppState)
    (current : OpenStackRelease) :
    (∀ ts, lookupTable (app.charm, app.series, current.codename)
        m.openstack_to_track = some ts → ts ≠ [] →
      possible_current_channels m app current =
        Except.ok (ts.map (fun track => track ++ "/stable")))
  ∧ (lookupTable (app.charm, app.series, current.codename) m.openstack_to_track = none →
      possible_current_channels m app current =
        Except.error ("Cannot find a suitable '" ++ app.charm ++
          "' charm channel for " ++ current.codename ++ " on series '" ++ app.series ++
          "'. Please take a look at the documentation: https://docs.openstack.org/charm-guide/latest/project/charm-delivery.html"))
  ∧ (∀ l, possible_current_channels m app current = Except.ok l →
      ∃ ts, lookupTable (app.charm, app.series, current.codename)
          m.openstack_to_track = some ts ∧ ts ≠ [] ∧
        l = ts.map (fun track => track ++ "/stable")) := by
  refine ⟨?_, ?_, ?_⟩
  · intro ts h hne
    match ts, hne with
    | t :: ts, _ => rw [possible_current_channels, h]
  · intro h
    rw [possible_current_channels, h]
    rfl
  · intro l hl
    rw [possible_current_channels] at hl
    rcases he : lookupTable (app.charm, app.series, current.codename)
        m.openstack_to_track with _ | ts
    · rw [he] at hl
      cases hl
    · cases ts with
      | nil =>
        rw [he] at hl
        cases hl
      | cons t ts =>
        rw [he] at hl
        injection hl with h2
        exact ⟨t :: ts, rfl, List.cons_ne_nil t ts, h2.symm⟩

/-- Witness for C8 at the concrete table: victoria has the registered tracks
1.7 and 1.8, and zed has none. -/
theorem possible_current_channels_spec_witness :
    possible_current_channels demoMappings demoApp { codename := "victoria" } =
      Except.ok ["1.7/stable", "1.8/stable"]
  ∧ possible_current_channels demoMappings demoApp { codename := "zed" } =
      Except.error ("Cannot find a suitable '" ++ "vault" ++
        "' charm channel for " ++ "zed" ++ " on series '" ++ "focal" ++
        "'. Please take a look at the documentation: https://docs.openstack.org/charm-guide/latest/project/charm-delivery.html") :=
  ⟨(possible_current_channels_spec demoMappings demoApp { codename := "victoria" }).1
      ["1.7", "1.8"] (by decide) (by decide),
   (possible_current_channels_spec demoMappings demoApp { codename := "zed" }).2.1
      (by decide)⟩

theorem lookupTable_mem {α : Type} (key : String × String × String)
    (table : List ((String × String × String) × α)) (v : α)
    (h : lookupTable key table = some v) : (key, v) ∈ table := by
  induction table with
  | nil => cases h
  | cons p rest ih =>
    rcases p with ⟨k, w⟩
    rw [lookupTable] at h
    by_cases hk : k = key
    · rw [if_pos hk] at h
      injection h with h2
      rw [← hk, ← h2]
      exact List.mem_cons_self _ _
    · rw [if_neg hk] at h
      exact List.mem_cons_of_mem _ (ih h)

/-- C9: for a non-charm-store auxiliary application whose current channel
passes `is_valid_track`, `channel_codename` cannot fail: the reverse lookup
uses exactly the (charm, series, track) key whose presence `is_valid_track`
checked, so under the spec's table invariant (registered entries map to
one-or-more releases) the failure branches are unreachable. -/
theorem valid_track_codename_total (m : Mappings) (app : AppState)
    (hstore : app.is_from_charm_store = false)
    (hinv : ∀ k rs, (k, rs) ∈ m.track_to_openstack → rs ≠ [])
    (hvalid : is_valid_track m app app.channel = true) :
    ∃ r, channel_codename m app = Except.ok r := by
  rw [is_valid_track, hstore] at hvalid
  simp only [Bool.false_eq_true, if_false] at hvalid
  rcases ho : lookupTable (app.charm, app.series, get_track_from_channel app.channel)
      m.track_to_openstack with _ | rs
  · rw [ho] at hvalid
    exact Bool.noConfusion hvalid
  · have hne : rs ≠ [] := hinv _ rs (lookupTable_mem _ _ rs ho)
    match rs, hne, ho with
    | r0 :: rs, _, ho =>
      refine ⟨pickMax r0 rs, ?_⟩
      rw [channel_codename, hstore]
      simp only [Bool.false_eq_true, if_false]
      rw [ho]

/-- Witness for C9 at the concrete table: the demo application's channel is
valid and its current release resolves. -/
theorem valid_track_codename_total_witness :
    ∃ r, channel_codename demoMappings demoApp = Except.ok r :=
  valid_track_codename_total demoMappings demoApp rfl
    (by
      intro k rs hmem
      rcases List.mem_cons.mp hmem with h | h
      · rw [Prod.mk.injEq] at h
        rw [h.2]
        decide
      · cases h)
    (by decide)

/-- Modelled from the spec: one hypervisor machine-unit as the workload guard
sees it, with its identifier, co-located component kinds, availability zone
and live active-workload count fetched at plan time (the plan generator and
workload guard live outside the repository slice; the record shape follows
the skip-report log asserted in src/tests/mocked_plans/test_base_plan.py). -/
structure HypervisorUnit where
  machine_id : String
  apps : List String
  az : String
  instance_count : Nat
deriving DecidableEq

/-- Ordering of skip-report entries: ascending unit (machine) identifier. -/
def byMachineId (a b : HypervisorUnit) : Prop :=
  a.machine_id ≤ b.machine_id

instance : DecidableRel byMachineId :=
  fun a b => inferInstanceAs (Decidable (a.machine_id ≤ b.machine_id))

instance : IsTotal HypervisorUnit byMachineId :=
  ⟨fun a b => le_total a.machine_id b.machine_id⟩

instance : IsTrans HypervisorUnit byMachineId :=
  ⟨fun _ _ _ hab hbc => le_trans hab hbc⟩

/-- Modelled from the spec: the workload guard includes a unit in the upgrade
step exactly when its live active-workload count is zero; it never aborts
(it is a total filter over the snapshot). -/
def hypervisorUpgradeTargets (us : List HypervisorUnit) : List HypervisorUnit :=
  us.filter (fun u => u.instance_count == 0)

/-- Modelled from the spec: the skip report records every unit with a nonzero
count, with its co-located component kinds and zone, sorted ascending by unit
identifier so output is reproducible. -/
def hypervisorSkipReport (us : List HypervisorUnit) : List HypervisorUnit :=
  List.insertionSort byMachineId (us.filter (fun u => u.instance_count != 0))

/-- C7: a unit is planned for upgrade iff its live active-workload count is
zero; every unit with a nonzero count is excluded (the guard is total, so
plan generation is not aborted) and appears exactly once in the skip report,
which is sorted in ascending order of unit identifier. -/
theorem workload_guard_spec (us : List HypervisorUnit)
    (hids : (us.map HypervisorUnit.machine_id).Nodup) :
    (∀ u ∈ us, (u ∈ hypervisorUpgradeTargets us ↔ u.instance_count = 0))
  ∧ (∀ u ∈ us, (u ∈ hypervisorSkipReport us ↔ u.instance_count ≠ 0))
  ∧ (∀ u ∈ us, u.instance_count ≠ 0 → (hypervisorSkipReport us).count u = 1)
  ∧ List.Sorted byMachineId (hypervisorSkipReport us) := by
  have hnodup : us.Nodup := List.Nodup.of_map HypervisorUnit.machine_id hids
  refine ⟨?_, ?_, ?_, ?_⟩
  · intro u hu
    constructor
    · intro h
      have := (List.mem_filter.mp h).2
      simpa using this
    · intro h
      exact List.mem_filter.mpr ⟨hu, by simpa using h⟩
  · intro u hu
    rw [hypervisorSkipReport, List.mem_insertionSort]
    constructor
    · intro h
      have := (List.mem_filter.mp h).2
      simpa using this
    · intro h
      exact List.mem_filter.mpr ⟨hu, by simpa using h⟩
  · intro u hu h
    have hmem : u ∈ us.filter (fun u => u.instance_count != 0) :=
      List.mem_filter.mpr ⟨hu, by simpa using h⟩
    have hfn : (us.filter (fun u => u.instance_count != 0)).Nodup :=
      List.Nodup.filter _ hnodup
    rw [hypervisorSkipReport,
      (List.perm_insertionSort byMachineId (us.filter (fun u => u.instance_count != 0))).count_eq]
    exact List.count_eq_one_of_mem hfn hmem
  · exact List.sorted_insertionSort byMachineId _

/-- Concrete hypervisor snapshot mirroring the mocked-plan test: machines 1
and 3 still host instances, machine 2 is empty. -/
def demoHypervisors : List HypervisorUnit :=
  [{ machine_id := "1", apps := ["nova-compute", "ovn-chassis"], az := "az-0",
     instance_count := 1 },
   { machine_id := "2", apps := ["nova-compute", "ovn-chassis"], az := "az-0",
     instance_count := 0 },
   { machine_id := "3", apps := ["nova-compute", "ovn-chassis"], az := "az-0",
     instance_count := 1 }]

/-- Witness for C7 at the concrete snapshot. -/
theorem workload_guard_spec_witness :
    (∀ u ∈ demoHypervisors,
      (u ∈ hypervisorUpgradeTargets demoHypervisors ↔ u.instance_count = 0))
  ∧ (∀ u ∈ demoHypervisors,
      (u ∈ hypervisorSkipReport demoHypervisors ↔ u.instance_count ≠ 0))
  ∧ (∀ u ∈ demoHypervisors, u.instance_count ≠ 0 →
      (hypervisorSkipReport demoHypervisors).count u = 1)
  ∧ List.Sorted byMachineId (hypervisorSkipReport demoHypervisors) :=
  workload_guard_spec demoHypervisors (by decide)

end Cou
